import Mathlib

/-!
Verification of the OpenImageDebugger inter-process visualization bridge
(`src/oidbridge/oid_bridge.cpp`) against its natural-language specification.

The bridge exchanges a typed binary protocol with a separately spawned UI
process.  The wire codec itself (`MessageComposer` / `MessageDecoder` /
`MessageType` / `type_size`, declared in `ipc/message_exchange.h`) is not part
of the sources available here, only its callers are; those parts are modelled
from the specification and marked as such.  Everything else is a shallow
embedding of `oid_bridge.cpp`:

* the byte stream of the TCP channel is a `List Nat`, one element per
  fixed-width wire primitive (tag, length prefix, integer, boolean, raw byte);
* strings on the wire are byte lists, length-prefixed;
* the Qt socket / Python objects are replaced by explicit state fields
  (`client_` models `client_ != nullptr`, `procRunning` models
  `ui_proc_.isRunning()`), and each C++ member function becomes a pure state
  transformer;
* blocking socket reads are modelled by reading from the buffered stream:
  `waitForReadyRead(msecs)` followed by `bytesAvailable() == 0` is the stream
  being empty.
-/

namespace OID

/-! ## Wire codec

Modelled from the spec: `MessageType` is "a closed, fixed-width enumeration
identifying each message kind on the wire", with "stable numeric values"; the
concrete enumeration values are taken in declaration order of the message
kinds named by the spec.  The codec writes "the MessageType tag first and
then the payload fields in declaration order, each length-prefixed if
variable-size"; strings are length-prefixed, sequences of strings are
count-prefixed, raw buffers are length-prefixed and copied verbatim. -/

inductive MessageType where
  | GetObservedSymbols
  | PlotBufferContents
  | PlotBufferRequest
  | SetAvailableSymbols
  | GetObservedSymbolsResponse
deriving DecidableEq, Repr

/-- Modelled from the spec: the stable numeric tag value of each
`MessageType`, in declaration order. -/
def MessageType.tag : MessageType → Nat
  | .GetObservedSymbols => 0
  | .PlotBufferContents => 1
  | .PlotBufferRequest => 2
  | .SetAvailableSymbols => 3
  | .GetObservedSymbolsResponse => 4

/-- A wire string: raw bytes (length-prefixed on the wire, so it may contain
arbitrary embedded bytes). -/
abbrev WireString := List Nat

/-- Modelled from the spec: the tagged variant of all protocol messages, one
case per `MessageType`, each carrying its payload fields in declaration
order. -/
inductive WireMessage where
  | getObservedSymbols
  | plotBufferContents (variableName displayName pixelLayout : WireString)
      (transposeBuffer : Bool) (width height channels stride : Int)
      (bufferType : Nat) (data : List Nat)
  | plotBufferRequest (bufferName : WireString)
  | setAvailableSymbols (symbols : List WireString)
  | getObservedSymbolsResponse (symbols : List WireString)
deriving DecidableEq, Repr

/-- The `MessageType` tag carried by a `WireMessage`. -/
def WireMessage.msgType : WireMessage → MessageType
  | .getObservedSymbols => .GetObservedSymbols
  | .plotBufferContents .. => .PlotBufferContents
  | .plotBufferRequest _ => .PlotBufferRequest
  | .setAvailableSymbols _ => .SetAvailableSymbols
  | .getObservedSymbolsResponse _ => .GetObservedSymbolsResponse

/-- Modelled from the spec: a signed fixed-width (32-bit) integer written as
its two's-complement value, one wire primitive. -/
def encodeInt (i : Int) : Nat :=
  (i % (2 ^ 32 : Int)).toNat

/-- Modelled from the spec: reading back a two's-complement 32-bit wire
primitive as a signed integer. -/
def decodeInt (n : Nat) : Int :=
  if n < 2 ^ 31 then (n : Int) else (n : Int) - 2 ^ 32

/-- Modelled from the spec: a boolean as one wire primitive, 1 for true and
0 for false. -/
def encodeBool (b : Bool) : Nat :=
  if b then 1 else 0

/-- Modelled from the spec: reading back a boolean wire primitive (non-zero
is true). -/
def decodeBool (n : Nat) : Bool :=
  n ≠ 0

/-- Modelled from the spec: a string is length-prefixed (no null
terminator). -/
def encodeString (s : WireString) : List Nat :=
  s.length :: s

/-- The concatenated encodings of a list of strings (the bodies following a
count prefix). -/
def encodeStrings : List WireString → List Nat
  | [] => []
  | s :: ss => encodeString s ++ encodeStrings ss

/-- Modelled from the spec: a sequence of strings is count-prefixed, followed
by each length-prefixed string. -/
def encodeStringSeq (ss : List WireString) : List Nat :=
  ss.length :: encodeStrings ss

/-- Modelled from the spec: `encode(Message) -> bytes` — the `MessageType`
tag first, then the payload fields in declaration order, each length-prefixed
if variable-size. -/
def WireMessage.encode : WireMessage → List Nat
  | .getObservedSymbols => [MessageType.GetObservedSymbols.tag]
  | .plotBufferContents vn dn pl t w h c s bt d =>
      MessageType.PlotBufferContents.tag ::
        (encodeString vn ++ encodeString dn ++ encodeString pl ++
          (encodeBool t :: encodeInt w :: encodeInt h :: encodeInt c ::
            encodeInt s :: bt :: encodeString d))
  | .plotBufferRequest bn =>
      MessageType.PlotBufferRequest.tag :: encodeString bn
  | .setAvailableSymbols ss =>
      MessageType.SetAvailableSymbols.tag :: encodeStringSeq ss
  | .getObservedSymbolsResponse ss =>
      MessageType.GetObservedSymbolsResponse.tag :: encodeStringSeq ss

/-! Stream readers.  A socket read blocks until data is available, so on the
buffered stream the readers are total: they take what is there. -/

/-- Read one wire primitive; an exhausted stream yields 0. -/
def readPrim : List Nat → Nat × List Nat
  | [] => (0, [])
  | n :: rest => (n, rest)

/-- Read a length-prefixed string: the length prefix, then that many
elements. -/
def readString : List Nat → WireString × List Nat
  | [] => ([], [])
  | n :: rest => (rest.take n, rest.drop n)

/-- Read `k` consecutive length-prefixed strings. -/
def readStringsN : Nat → List Nat → List WireString × List Nat
  | 0, l => ([], l)
  | k + 1, l =>
      ((readString l).1 :: (readStringsN k (readString l).2).1,
        (readStringsN k (readString l).2).2)

/-- Read a count-prefixed sequence of length-prefixed strings. -/
def readStringSeq (l : List Nat) : List WireString × List Nat :=
  readStringsN (readPrim l).1 (readPrim l).2

/-- Modelled from the spec: `decode_one(tag, byte_source) -> Message`; the
payload fields are read in declaration order.  An unrecognized tag is a
protocol error, hence `none`. -/
def decode_one (tag : Nat) (l : List Nat) : Option (WireMessage × List Nat) :=
  if tag = MessageType.GetObservedSymbols.tag then
    some (.getObservedSymbols, l)
  else if tag = MessageType.PlotBufferContents.tag then
    let (vn, l1) := readString l
    let (dn, l2) := readString l1
    let (pl, l3) := readString l2
    let (t, l4) := readPrim l3
    let (w, l5) := readPrim l4
    let (h, l6) := readPrim l5
    let (c, l7) := readPrim l6
    let (s, l8) := readPrim l7
    let (bt, l9) := readPrim l8
    let (d, l10) := readString l9
    some (.plotBufferContents vn dn pl (decodeBool t) (decodeInt w)
      (decodeInt h) (decodeInt c) (decodeInt s) bt d, l10)
  else if tag = MessageType.PlotBufferRequest.tag then
    let (bn, l1) := readString l
    some (.plotBufferRequest bn, l1)
  else if tag = MessageType.SetAvailableSymbols.tag then
    let (ss, l1) := readStringSeq l
    some (.setAvailableSymbols ss, l1)
  else if tag = MessageType.GetObservedSymbolsResponse.tag then
    let (ss, l1) := readStringSeq l
    some (.getObservedSymbolsResponse ss, l1)
  else
    none

/-- Decode a full encoded message: the tag is the first wire primitive, the
payload follows. -/
def decode : List Nat → Option (WireMessage × List Nat)
  | [] => none
  | tag :: rest => decode_one tag rest

/-- A valid message: its fixed-width signed integer fields fit in 32 bits.
(All other fields round-trip unconditionally at wire-primitive
granularity.) -/
def intValid (i : Int) : Prop :=
  -(2 ^ 31) ≤ i ∧ i < 2 ^ 31

instance (i : Int) : Decidable (intValid i) := by
  unfold intValid; infer_instance

/-- Validity of a `WireMessage`: every fixed-width integer field is in
range. -/
def WireMessage.valid : WireMessage → Prop
  | .plotBufferContents _ _ _ _ w h c s _ _ =>
      intValid w ∧ intValid h ∧ intValid c ∧ intValid s
  | _ => True

instance (m : WireMessage) : Decidable m.valid := by
  cases m <;> (unfold WireMessage.valid; infer_instance)

/-! ### Round-trip lemmas -/

theorem readString_encodeString (s : WireString) (r : List Nat) :
    readString (encodeString s ++ r) = (s, r) := by
  simp [readString, encodeString]

theorem readPrim_cons (n : Nat) (r : List Nat) :
    readPrim (n :: r) = (n, r) := rfl

theorem readStringsN_encodeStrings (ss : List WireString) (r : List Nat) :
    readStringsN ss.length (encodeStrings ss ++ r) = (ss, r) := by
  induction ss generalizing r with
  | nil => simp [readStringsN, encodeStrings]
  | cons s ss ih =>
      simp [readStringsN, encodeStrings, List.append_assoc,
        readString_encodeString, ih]

theorem readStringSeq_encodeStringSeq (ss : List WireString) (r : List Nat) :
    readStringSeq (encodeStringSeq ss ++ r) = (ss, r) := by
  simp [readStringSeq, encodeStringSeq, readPrim, readStringsN_encodeStrings]

theorem decodeInt_encodeInt (i : Int) (h : intValid i) :
    decodeInt (encodeInt i) = i := by
  unfold intValid at h
  unfold decodeInt encodeInt
  split <;> omega

theorem decodeBool_encodeBool (b : Bool) :
    decodeBool (encodeBool b) = b := by
  cases b <;> rfl

/-! ## Bridge state (`class OidBridge` in `oid_bridge.cpp`)

The bridge decodes only two incoming message kinds
(`decode_plot_buffer_request`, `decode_get_observed_symbols_response`), so the
`UiMessage` hierarchy of the source has exactly those two concrete
subclasses. -/

/-- `struct UiMessage` and its two concrete subclasses,
`PlotBufferRequestMessage { std::string buffer_name; }` and
`GetObservedSymbolsResponseMessage { std::deque<std::string> observed_symbols; }`. -/
inductive UiMessage where
  | plotBufferRequestMessage (buffer_name : WireString)
  | getObservedSymbolsResponseMessage (observed_symbols : List WireString)
deriving DecidableEq, Repr

/-- `std::map<MessageType, std::unique_ptr<UiMessage>> received_messages_`.
The switch in `try_read_incoming_messages` only ever stores a
`PlotBufferRequestMessage` under key `PlotBufferRequest` and a
`GetObservedSymbolsResponseMessage` under key `GetObservedSymbolsResponse`,
so the map is one optional slot per decodable message type. -/
structure Inbox where
  plotBufferRequest : Option WireString
  getObservedSymbolsResponse : Option (List WireString)
deriving DecidableEq, Repr

def Inbox.empty : Inbox := ⟨none, none⟩

/-- `received_messages_.find(msg_type)`: the stored message for a type, if
any.  Message types that are never stored have no entry. -/
def Inbox.get : Inbox → MessageType → Option UiMessage
  | i, .PlotBufferRequest => i.plotBufferRequest.map .plotBufferRequestMessage
  | i, .GetObservedSymbolsResponse =>
      i.getObservedSymbolsResponse.map .getObservedSymbolsResponseMessage
  | _, _ => none

/-- `received_messages_.erase(find_msg_handler)`. -/
def Inbox.erase : Inbox → MessageType → Inbox
  | i, .PlotBufferRequest => { i with plotBufferRequest := none }
  | i, .GetObservedSymbolsResponse => { i with getObservedSymbolsResponse := none }
  | i, _ => i

theorem readString_snd_length_le (l : List Nat) :
    (readString l).2.length ≤ l.length := by
  cases l with
  | nil => simp [readString]
  | cons n rest => simp [readString]; omega

theorem readStringsN_snd_length_le (k : Nat) (l : List Nat) :
    (readStringsN k l).2.length ≤ l.length := by
  induction k generalizing l with
  | zero => simp [readStringsN]
  | succ k ih =>
      simp only [readStringsN]
      exact le_trans (ih (readString l).2) (readString_snd_length_le l)

theorem readStringSeq_snd_length_le (l : List Nat) :
    (readStringSeq l).2.length ≤ l.length := by
  unfold readStringSeq
  exact le_trans (readStringsN_snd_length_le (readPrim l).1 (readPrim l).2)
    (by cases l <;> simp [readPrim])

/-- The loop body of `try_read_incoming_messages`: read a header primitive,
decode the payload of the two recognized message kinds into the inbox
(`received_messages_[header] = ...`, overwrite semantics), log an
"incorrect header" error on any other tag (counted in the second component).
The default branch consumes only the header; the loop then continues while
bytes remain (`while (client_->bytesAvailable() > 0)`). -/
def pumpBytes : List Nat → Inbox → Inbox × Nat
  | [], inbox => (inbox, 0)
  | header :: rest, inbox =>
    if header = MessageType.PlotBufferRequest.tag then
      -- decode_plot_buffer_request: message_decoder.read(response->buffer_name)
      pumpBytes (readString rest).2
        { inbox with plotBufferRequest := some (readString rest).1 }
    else if header = MessageType.GetObservedSymbolsResponse.tag then
      -- decode_get_observed_symbols_response: read a deque of strings
      pumpBytes (readStringSeq rest).2
        { inbox with getObservedSymbolsResponse := some (readStringSeq rest).1 }
    else
      -- std::cerr << "... Received message with incorrect header"
      ((pumpBytes rest inbox).1, (pumpBytes rest inbox).2 + 1)
termination_by l _ => l.length
decreasing_by
  · exact Nat.lt_succ_of_le (readString_snd_length_le rest)
  · exact Nat.lt_succ_of_le (readStringSeq_snd_length_le rest)
  · exact Nat.lt_succ_of_le le_rfl

/-- The whole state of one `OidBridge` instance, together with its channel.
`client_` models `client_ != nullptr`, `procRunning` models
`ui_proc_.isRunning()`, `channel` the bytes buffered for reading on the
socket, `sent` everything written to the socket so far, `errorsLogged` the
number of "incorrect header" diagnostics printed. -/
structure OidBridgeState where
  serverListening : Bool
  client_ : Bool
  procRunning : Bool
  inbox : Inbox
  channel : List Nat
  sent : List Nat
  errorsLogged : Nat
deriving DecidableEq, Repr

/-- The state of a freshly constructed `OidBridge` (field initializers of the
class): no server, no client, no process, empty inbox, nothing buffered. -/
def initialState : OidBridgeState :=
  { serverListening := false
    client_ := false
    procRunning := false
    inbox := Inbox.empty
    channel := []
    sent := []
    errorsLogged := 0 }

/-- `OidBridge::try_get_stored_message`: if the inbox holds a message of the
requested type, move it out and erase the entry; otherwise return null. -/
def try_get_stored_message (s : OidBridgeState) (msg_type : MessageType) :
    Option UiMessage × OidBridgeState :=
  match s.inbox.get msg_type with
  | some m => (some m, { s with inbox := s.inbox.erase msg_type })
  | none => (none, s)

/-- `OidBridge::try_read_incoming_messages`: drain the buffered bytes of the
channel into the inbox, decoding message after message (the do/while loop
runs until `bytesAvailable()` is zero).  The timeout argument only bounds the
initial blocking wait and does not affect which buffered bytes are
consumed. -/
def try_read_incoming_messages (s : OidBridgeState) : OidBridgeState :=
  { s with inbox := (pumpBytes s.channel s.inbox).1
           channel := []
           errorsLogged := s.errorsLogged + (pumpBytes s.channel s.inbox).2 }

/-- `OidBridge::fetch_message`: return the stored message if one was already
received; otherwise read incoming messages once and re-check. -/
def fetch_message (s : OidBridgeState) (msg_type : MessageType) :
    Option UiMessage × OidBridgeState :=
  match try_get_stored_message s msg_type with
  | (some result, s') => (some result, s')
  | (none, s') => try_get_stored_message (try_read_incoming_messages s') msg_type

/-- The while loop of `OidBridge::run_event_loop`: fetch stored
`PlotBufferRequest` messages until none remain, collecting the buffer name
passed to `plot_callback_` for each.  Since the inbox stores at most one
message per type and each successful fetch erases it, the loop body runs at
most once before `try_get_stored_message` returns null. -/
def drainPlotRequests (s : OidBridgeState) :
    List WireString × OidBridgeState :=
  match try_get_stored_message s .PlotBufferRequest with
  | (some (.plotBufferRequestMessage name), s') => ([name], s')
  | (some _, s') => ([], s')   -- dynamic_cast target mismatch: unreachable
  | (none, s') => ([], s')

/-- `OidBridge::run_event_loop`: one bounded read of incoming messages
(timeout 1000/5 ms), then the drain loop over `PlotBufferRequest` messages.
The first component lists the buffer names handed to `plot_callback_`, in
call order. -/
def run_event_loop (s : OidBridgeState) : List WireString × OidBridgeState :=
  drainPlotRequests (try_read_incoming_messages s)

/-- `OidBridge::get_observed_symbols`: send a `GetObservedSymbols` request,
fetch the `GetObservedSymbolsResponse`, and return its symbol list, or the
empty list when the fetch came back empty-handed. -/
def get_observed_symbols (s : OidBridgeState) :
    List WireString × OidBridgeState :=
  let s1 := { s with sent := s.sent ++ WireMessage.getObservedSymbols.encode }
  match fetch_message s1 .GetObservedSymbolsResponse with
  | (some (.getObservedSymbolsResponseMessage syms), s2) => (syms, s2)
  | (some _, s2) => ([], s2)   -- dynamic_cast target mismatch: unreachable
  | (none, s2) => ([], s2)

/-- `OidBridge::set_available_symbols`: fire-and-forget send of a
`SetAvailableSymbols` message. -/
def set_available_symbols (s : OidBridgeState)
    (available_vars : List WireString) : OidBridgeState :=
  { s with sent := s.sent ++ (WireMessage.setAvailableSymbols available_vars).encode }

/-- `OidBridge::is_window_ready`: `client_ != nullptr && ui_proc_.isRunning()`. -/
def is_window_ready (s : OidBridgeState) : Bool :=
  s.client_ && s.procRunning

/-- The environment `OidBridge::start` runs against: whether
`server_.listen` succeeds, whether the spawned UI process is running
afterwards, and whether a client connects within the
`waitForNewConnection(10000)` window (`nextPendingConnection()` non-null). -/
structure StartEnv where
  listenOk : Bool
  procStartsRunning : Bool
  clientConnects : Bool
deriving DecidableEq, Repr

/-- `OidBridge::start`: listen (early false on failure, nothing spawned);
spawn the UI process with the bound port; `wait_for_client` (which sets
`client_ = server_.nextPendingConnection()` when `client_` was null, even
after the wait timed out); return `client_ != nullptr`.  No kill and no retry
happens on any failure path inside `start`. -/
def start (s : OidBridgeState) (env : StartEnv) : Bool × OidBridgeState :=
  if !env.listenOk then
    (false, s)
  else
    let s1 := { s with serverListening := true,
                       procRunning := env.procStartsRunning }
    let s2 := if s1.client_ then s1
              else { s1 with client_ := env.clientConnects }
    (s2.client_, s2)

/-! ## Boundary layer (the `oid_*` entry points)

Each entry point takes an application handle (`AppHandler`, a pointer to an
`OidBridge`); a null handle is modelled as `none`.  Host-runtime marshaling
(PyObject field extraction and type checks) is assumed done; the modelled
arguments are the already-marshalled plain values.  Every wrapper returns a
flag recording whether `RAISE_PY_EXCEPTION` was invoked, its return value
where it has one, and the handle's state after the call. -/

/-- Modelled from the spec: the element-type enumeration of a buffer
(`BufferType`, declared in `ipc/message_exchange.h`, not among the available
sources). -/
inductive BufferType where
  | UnsignedByte
  | UnsignedShort
  | Short
  | Int32
  | Float32
  | Float64
deriving DecidableEq, Repr

/-- Modelled from the spec: `type_size(BufferType)` — the size in bytes of
one element of the given type (`element_size(element_type)` in the spec). -/
def type_size : BufferType → Nat
  | .UnsignedByte => 1
  | .UnsignedShort => 2
  | .Short => 2
  | .Int32 => 4
  | .Float32 => 4
  | .Float64 => 8

/-- Modelled from the spec: the stable numeric wire value of each
`BufferType`, in declaration order. -/
def BufferType.tag : BufferType → Nat
  | .UnsignedByte => 0
  | .UnsignedShort => 1
  | .Short => 2
  | .Int32 => 3
  | .Float32 => 4
  | .Float64 => 5

/-- The already-marshalled arguments of `oid_plot_buffer`: the required
metadata fields plus the raw pixel data retrieved from the memoryview
(`buff_ptr` / `buff_size` = `data` / `data.length`). -/
structure PlotArgs where
  variable_name : WireString
  display_name : WireString
  pixel_layout : WireString
  transpose_buffer : Bool
  width : Int
  height : Int
  channels : Int
  row_stride : Int
  bufferType : BufferType
  data : List Nat
deriving DecidableEq, Repr

/-- `OidBridge::plot_buffer`: compose and send a `PlotBufferContents`
message, pushing the payload fields in declaration order. -/
def plot_buffer (s : OidBridgeState) (a : PlotArgs) : OidBridgeState :=
  { s with sent := s.sent ++
      (WireMessage.plotBufferContents a.variable_name a.display_name
        a.pixel_layout a.transpose_buffer a.width a.height a.channels
        a.row_stride a.bufferType.tag a.data).encode }

/-- `static_cast<size_t>` of a signed value: two's-complement reduction
modulo `2 ^ 64`. -/
def size_t_cast (i : Int) : Nat :=
  (i % (2 ^ 64 : Int)).toNat

/-- `buff_size_expected` in `oid_plot_buffer`:
`static_cast<size_t>(buff_stride * buff_height * buff_channels) *
type_size(buff_type)`, computed in `size_t` arithmetic. -/
def buff_size_expected (a : PlotArgs) : Nat :=
  (size_t_cast (a.row_stride * a.height * a.channels) *
    type_size a.bufferType) % 2 ^ 64

/-- `oid_plot_buffer`: null-handle check, marshalling and field checks
(assumed passed here), then the buffer-size validation
`buff_size < buff_size_expected` which raises and returns before anything is
sent; only a large-enough buffer reaches `app->plot_buffer`. -/
def oid_plot_buffer (handler : Option OidBridgeState) (a : PlotArgs) :
    Bool × Option OidBridgeState :=
  match handler with
  | none => (true, none)
  | some app =>
      if a.data.length < buff_size_expected a then
        (true, some app)
      else
        (false, some (plot_buffer app a))

/-- `oid_exec`: null-handle check, then `app->start()` (whose return value is
discarded). -/
def oid_exec (handler : Option OidBridgeState) (env : StartEnv) :
    Bool × Option OidBridgeState :=
  match handler with
  | none => (true, none)
  | some app => (false, some (start app env).2)

/-- `oid_cleanup`: null-handle check, then destruction of the bridge (the
destructor kills the UI process). -/
def oid_cleanup (handler : Option OidBridgeState) :
    Bool × Option OidBridgeState :=
  match handler with
  | none => (true, none)
  | some _ => (false, none)

/-- `oid_is_window_ready`: null-handle check (returning 0), then
`app->is_window_ready()` converted to an int. -/
def oid_is_window_ready (handler : Option OidBridgeState) :
    Bool × Nat × Option OidBridgeState :=
  match handler with
  | none => (true, 0, none)
  | some app => (false, if is_window_ready app then 1 else 0, some app)

/-- `oid_run_event_loop`: null-handle check, then `app->run_event_loop()`. -/
def oid_run_event_loop (handler : Option OidBridgeState) :
    Bool × Option OidBridgeState :=
  match handler with
  | none => (true, none)
  | some app => (false, some (run_event_loop app).2)

/-- `oid_set_available_symbols`: null-handle check, then
`app->set_available_symbols` on the marshalled list. -/
def oid_set_available_symbols (handler : Option OidBridgeState)
    (available_vars : List WireString) : Bool × Option OidBridgeState :=
  match handler with
  | none => (true, none)
  | some app => (false, some (set_available_symbols app available_vars))

/-- `oid_get_observed_buffers`: null-handle check (returning a null
PyObject), then `app->get_observed_symbols()` marshalled into a list. -/
def oid_get_observed_buffers (handler : Option OidBridgeState) :
    Bool × Option (List WireString) × Option OidBridgeState :=
  match handler with
  | none => (true, none, none)
  | some app =>
      (false, some (get_observed_symbols app).1,
        some (get_observed_symbols app).2)

/-! ## Theorems -/

theorem readString_encodeString_nil (s : WireString) :
    readString (encodeString s) = (s, []) := by
  simpa using readString_encodeString s []

theorem readStringSeq_encodeStringSeq_nil (ss : List WireString) :
    readStringSeq (encodeStringSeq ss) = (ss, []) := by
  simpa using readStringSeq_encodeStringSeq ss []

/-- C1. Decoding the bytes produced by encoding a valid message yields
the message again: `decode_one(encode(m)) == m`, the `MessageType` tag being
written first and the payload fields following in declaration order, each
length-prefixed if variable-size.  This includes the edge cases of an empty
string sequence and a zero-length raw buffer. -/
theorem decode_encode_roundtrip (m : WireMessage) (h : m.valid) :
    decode m.encode = some (m, []) := by
  cases m with
  | getObservedSymbols =>
      simp [WireMessage.encode, decode, decode_one, MessageType.tag]
  | plotBufferContents vn dn pl t w hh c s bt d =>
      obtain ⟨h1, h2, h3, h4⟩ := h
      simp [WireMessage.encode, decode, decode_one, MessageType.tag,
        readString_encodeString, readString_encodeString_nil, readPrim,
        List.append_assoc, decodeBool_encodeBool,
        decodeInt_encodeInt _ h1, decodeInt_encodeInt _ h2,
        decodeInt_encodeInt _ h3, decodeInt_encodeInt _ h4]
  | plotBufferRequest bn =>
      simp [WireMessage.encode, decode, decode_one, MessageType.tag,
        readString_encodeString_nil]
  | setAvailableSymbols ss =>
      simp [WireMessage.encode, decode, decode_one, MessageType.tag,
        readStringSeq_encodeStringSeq_nil]
  | getObservedSymbolsResponse ss =>
      simp [WireMessage.encode, decode, decode_one, MessageType.tag,
        readStringSeq_encodeStringSeq_nil]

/-- C1 witness. The round-trip at two concrete edge-case messages: an
empty string sequence and a buffer-contents message with a zero-length raw
buffer. -/
theorem decode_encode_roundtrip_witness :
    decode (WireMessage.getObservedSymbolsResponse []).encode =
      some (WireMessage.getObservedSymbolsResponse [], []) ∧
    decode (WireMessage.plotBufferContents [111] [100] [114] false 2 3 1 2
        BufferType.UnsignedByte.tag []).encode =
      some (WireMessage.plotBufferContents [111] [100] [114] false 2 3 1 2
        BufferType.UnsignedByte.tag [], []) :=
  ⟨decode_encode_roundtrip _ (by decide),
    decode_encode_roundtrip _ (by decide)⟩

/-! ### Pump lemmas -/

theorem pumpBytes_nil (i : Inbox) : pumpBytes [] i = (i, 0) := by
  simp [pumpBytes]

theorem pumpBytes_plotBufferRequest (n : WireString) (r : List Nat)
    (i : Inbox) :
    pumpBytes ((WireMessage.plotBufferRequest n).encode ++ r) i =
      pumpBytes r { i with plotBufferRequest := some n } := by
  simp [WireMessage.encode, MessageType.tag, pumpBytes,
    readString_encodeString]

theorem pumpBytes_getObservedSymbolsResponse (ss : List WireString)
    (r : List Nat) (i : Inbox) :
    pumpBytes ((WireMessage.getObservedSymbolsResponse ss).encode ++ r) i =
      pumpBytes r { i with getObservedSymbolsResponse := some ss } := by
  simp [WireMessage.encode, MessageType.tag, pumpBytes,
    readStringSeq_encodeStringSeq]

/-- C2. The Inbox holds at most one undelivered message per type:
pumping two messages of the same type with no fetch in between leaves
exactly the second one stored (most-recent-wins, for both decodable message
types, whatever the Inbox held before); and fetching a stored message
removes it from the Inbox. -/
theorem inbox_most_recent_wins :
    (∀ (i : Inbox) (n1 n2 : WireString),
      (pumpBytes ((WireMessage.plotBufferRequest n1).encode ++
          (WireMessage.plotBufferRequest n2).encode) i).1.plotBufferRequest =
        some n2) ∧
    (∀ (i : Inbox) (s1 s2 : List WireString),
      (pumpBytes ((WireMessage.getObservedSymbolsResponse s1).encode ++
          (WireMessage.getObservedSymbolsResponse s2).encode)
        i).1.getObservedSymbolsResponse = some s2) ∧
    (∀ (s : OidBridgeState) (t : MessageType),
      ((try_get_stored_message s t).2).inbox.get t = none) := by
  refine ⟨?_, ?_, ?_⟩
  · intro i n1 n2
    rw [pumpBytes_plotBufferRequest, ← List.append_nil
      (WireMessage.plotBufferRequest n2).encode, pumpBytes_plotBufferRequest,
      pumpBytes_nil]
  · intro i s1 s2
    rw [pumpBytes_getObservedSymbolsResponse, ← List.append_nil
      (WireMessage.getObservedSymbolsResponse s2).encode,
      pumpBytes_getObservedSymbolsResponse, pumpBytes_nil]
  · intro s t
    cases t with
    | PlotBufferRequest =>
        cases h : s.inbox.plotBufferRequest <;>
          simp [try_get_stored_message, Inbox.get, Inbox.erase, h]
    | GetObservedSymbolsResponse =>
        cases h : s.inbox.getObservedSymbolsResponse <;>
          simp [try_get_stored_message, Inbox.get, Inbox.erase, h]
    | GetObservedSymbols => simp [try_get_stored_message, Inbox.get]
    | PlotBufferContents => simp [try_get_stored_message, Inbox.get]
    | SetAvailableSymbols => simp [try_get_stored_message, Inbox.get]

/-- Fetching never writes to the socket. -/
theorem fetch_message_sent (s : OidBridgeState) (t : MessageType) :
    (fetch_message s t).2.sent = s.sent := by
  unfold fetch_message try_get_stored_message try_read_incoming_messages
  cases s.inbox.get t with
  | some m => simp
  | none =>
      simp only
      cases h : Inbox.get (pumpBytes s.channel s.inbox).1 t <;> simp [h]

/-- C3. `fetch_message`: a message of the requested type already in the
Inbox is returned and removed immediately, without reading from the channel;
otherwise incoming messages are read exactly once
(`try_read_incoming_messages`) and the Inbox is re-checked; if the message is
still absent the result is null — a normal outcome, not an error. -/
theorem fetch_message_contract :
    (∀ (s : OidBridgeState) (t : MessageType) (m : UiMessage),
      s.inbox.get t = some m →
        fetch_message s t = (some m, { s with inbox := s.inbox.erase t })) ∧
    (∀ (s : OidBridgeState) (t : MessageType),
      s.inbox.get t = none →
        fetch_message s t =
          try_get_stored_message (try_read_incoming_messages s) t) ∧
    (∀ (s : OidBridgeState) (t : MessageType),
      s.inbox.get t = none →
        Inbox.get (pumpBytes s.channel s.inbox).1 t = none →
          (fetch_message s t).1 = none) := by
  refine ⟨?_, ?_, ?_⟩
  · intro s t m h
    simp [fetch_message, try_get_stored_message, h]
  · intro s t h
    simp [fetch_message, try_get_stored_message, h]
  · intro s t h1 h2
    simp [fetch_message, try_get_stored_message, try_read_incoming_messages,
      h1, h2]

/-- C3 witness. At a concrete state holding one `PlotBufferRequest`
message: an immediate hit; and at the pristine state with nothing buffered:
a null result. -/
theorem fetch_message_contract_witness :
    fetch_message { initialState with inbox := ⟨some [7], none⟩ }
        .PlotBufferRequest =
      (some (.plotBufferRequestMessage [7]),
        { initialState with
            inbox := Inbox.erase ⟨some [7], none⟩ .PlotBufferRequest }) ∧
    (fetch_message initialState .PlotBufferRequest).1 = none :=
  ⟨fetch_message_contract.1 _ _ _ rfl,
    fetch_message_contract.2.2 _ _ rfl
      (by simp [initialState, pumpBytes_nil, Inbox.empty, Inbox.get])⟩

/-- After `run_event_loop` the channel buffer has been drained. -/
theorem run_event_loop_channel (s : OidBridgeState) :
    (run_event_loop s).2.channel = [] := by
  unfold run_event_loop drainPlotRequests try_get_stored_message
    try_read_incoming_messages
  cases h : Inbox.get (pumpBytes s.channel s.inbox).1 .PlotBufferRequest with
  | none => simp [h]
  | some m => cases m <;> simp [h]

/-- After `run_event_loop` no `PlotBufferRequest` message remains stored. -/
theorem run_event_loop_no_pending (s : OidBridgeState) :
    (run_event_loop s).2.inbox.plotBufferRequest = none := by
  unfold run_event_loop drainPlotRequests try_get_stored_message
    try_read_incoming_messages
  cases h : Inbox.get (pumpBytes s.channel s.inbox).1 .PlotBufferRequest with
  | none =>
      simp only [h]
      unfold Inbox.get at h
      simpa using h
  | some m =>
      cases m <;> simp [h, Inbox.erase]

/-- On a quiet bridge — nothing buffered on the channel and no pending
`PlotBufferRequest` — `run_event_loop` invokes the callback zero times. -/
theorem run_event_loop_quiet (s : OidBridgeState) (hc : s.channel = [])
    (hp : s.inbox.plotBufferRequest = none) :
    (run_event_loop s).1 = [] := by
  simp [run_event_loop, drainPlotRequests, try_get_stored_message,
    try_read_incoming_messages, hc, pumpBytes_nil, Inbox.get, hp]

/-- C4. `run_event_loop` first performs one short bounded read of
incoming messages, then fetches `PlotBufferRequest` messages from the Inbox
until none remain, invoking the host callback exactly once per pending
request with that request's buffer name (the single-slot Inbox pends at most
one); a second call with no new channel traffic invokes the callback zero
times. -/
theorem run_event_loop_contract :
    ∀ s : OidBridgeState,
      (run_event_loop s).1 =
        ((pumpBytes s.channel s.inbox).1.plotBufferRequest).toList ∧
      (run_event_loop (run_event_loop s).2).1 = [] := by
  intro s
  constructor
  · unfold run_event_loop drainPlotRequests try_get_stored_message
      try_read_incoming_messages
    cases h : (pumpBytes s.channel s.inbox).1.plotBufferRequest with
    | none => simp [Inbox.get, h]
    | some n => simp [Inbox.get, h]
  · exact run_event_loop_quiet _ (run_event_loop_channel s)
      (run_event_loop_no_pending s)

/-- C5. `get_observed_symbols` sends a `GetObservedSymbols` request
message, then performs a blocking fetch of the `GetObservedSymbolsResponse`;
when no response can be obtained — nothing stored and nothing decodable
arriving on the channel, which is what a fetch timeout or a dead connection
look like — it returns the empty sequence as a normal result rather than an
error. -/
theorem get_observed_symbols_contract :
    (∀ s : OidBridgeState,
      (get_observed_symbols s).2.sent =
        s.sent ++ WireMessage.getObservedSymbols.encode) ∧
    (∀ s : OidBridgeState,
      s.inbox.getObservedSymbolsResponse = none →
        (pumpBytes s.channel s.inbox).1.getObservedSymbolsResponse = none →
          (get_observed_symbols s).1 = []) := by
  constructor
  · intro s
    unfold get_observed_symbols
    dsimp only
    rcases hfm : fetch_message
        { s with sent := s.sent ++ WireMessage.getObservedSymbols.encode }
        .GetObservedSymbolsResponse with ⟨r, s2⟩
    have hsent : s2.sent = s.sent ++ WireMessage.getObservedSymbols.encode := by
      have := fetch_message_sent
        { s with sent := s.sent ++ WireMessage.getObservedSymbols.encode }
        .GetObservedSymbolsResponse
      rw [hfm] at this
      exact this
    cases r with
    | none => simpa using hsent
    | some m => cases m <;> simpa using hsent
  · intro s h1 h2
    unfold get_observed_symbols
    dsimp only
    rcases hfm : fetch_message
        { s with sent := s.sent ++ WireMessage.getObservedSymbols.encode }
        .GetObservedSymbolsResponse with ⟨r, s2⟩
    have hr : r = none := by
      have := fetch_message_contract.2.2
        { s with sent := s.sent ++ WireMessage.getObservedSymbols.encode }
        .GetObservedSymbolsResponse (by simp [Inbox.get, h1])
        (by simp [Inbox.get, h2])
      rw [hfm] at this
      exact this
    subst hr
    rfl

/-- C5 witness. At the pristine state (empty inbox, nothing buffered —
no reply can arrive): the request goes out and the result is the empty
sequence. -/
theorem get_observed_symbols_contract_witness :
    (get_observed_symbols initialState).2.sent =
      initialState.sent ++ WireMessage.getObservedSymbols.encode ∧
    (get_observed_symbols initialState).1 = [] :=
  ⟨get_observed_symbols_contract.1 initialState,
    get_observed_symbols_contract.2 initialState rfl
      (by simp [initialState, pumpBytes_nil, Inbox.empty])⟩

/-- C6. `is_window_ready` is true iff a client is connected AND the UI
process is running; it is false on a freshly constructed bridge (before
`start`) and false after a `start` that returned false.  In the model it is
a plain function of the state, performing no I/O and no state change. -/
theorem is_window_ready_contract :
    (∀ s : OidBridgeState,
      is_window_ready s = (s.client_ && s.procRunning)) ∧
    is_window_ready initialState = false ∧
    (∀ (s : OidBridgeState) (env : StartEnv),
      s.client_ = false → (start s env).1 = false →
        is_window_ready (start s env).2 = false) := by
  refine ⟨fun _ => rfl, rfl, ?_⟩
  intro s env hc hf
  cases hL : env.listenOk with
  | false => simp [start, hL, is_window_ready, hc]
  | true =>
      simp [start, hL, hc] at hf
      simp [start, hL, hc, is_window_ready, hf]

/-- C6 witness. A fresh bridge whose `start` fails at the bind step is
not ready afterwards. -/
theorem is_window_ready_contract_witness :
    initialState.client_ = false ∧
    (start initialState ⟨false, false, false⟩).1 = false ∧
    is_window_ready (start initialState ⟨false, false, false⟩).2 = false :=
  ⟨rfl, rfl, is_window_ready_contract.2.2 initialState ⟨false, false, false⟩
    rfl rfl⟩

/-- C7 counterexample. The claim "a false return from start() alone
guarantees no dangling running UI process" fails on the code: with a
successful bind, a successfully spawned (running) UI process and no client
connecting within the wait window, `start` returns false yet the UI process
is still running — nothing on this path kills it. -/
theorem start_no_dangling_counterexample :
    (start initialState ⟨true, true, false⟩).1 = false ∧
    (start initialState ⟨true, true, false⟩).2.procRunning = true :=
  ⟨rfl, rfl⟩

/-- C7 (amended). `start` returns false exactly when the bind fails or
no client connects within the wait window (spawn failure implies the latter,
since only the spawned process would connect), with no internal retry; on
bind failure it returns early with the state unchanged, so nothing is
spawned; but after a successful spawn and a connection timeout the false
return leaves the UI process running — cleanup happens only at teardown. -/
theorem start_amended (s : OidBridgeState) (env : StartEnv)
    (hc : s.client_ = false) :
    (start s env).1 = (env.listenOk && env.clientConnects) ∧
    (env.listenOk = false → (start s env).2 = s) := by
  cases hL : env.listenOk with
  | false => simp [start, hL]
  | true => simp [start, hL, hc]

/-- C7 witness. A bind failure on a fresh bridge: `start` returns false
and changes nothing. -/
theorem start_amended_witness :
    (start initialState ⟨false, true, true⟩).1 =
      ((⟨false, true, true⟩ : StartEnv).listenOk &&
        (⟨false, true, true⟩ : StartEnv).clientConnects) ∧
    ((⟨false, true, true⟩ : StartEnv).listenOk = false →
      (start initialState ⟨false, true, true⟩).2 = initialState) :=
  start_amended initialState ⟨false, true, true⟩ rfl

/-- C8 counterexample. The claim that after an unrecognized tag "the
offending bytes are discarded … so subsequent messages on the same Channel
are still decoded correctly" fails on the code: the dispatcher consumes only
the tag, so the unknown message's payload bytes are re-read as headers.
Here an unknown message `[99, 1, 4]` is followed by a well-formed
`PlotBufferRequest` for buffer `[98]`; pumping leaves the payload byte `4`
to be misread as a `GetObservedSymbolsResponse` header that swallows the
request, which therefore never reaches the Inbox. -/
theorem unknown_tag_counterexample :
    (pumpBytes ([99, 1, 4] ++ (WireMessage.plotBufferRequest [98]).encode)
      Inbox.empty).1.plotBufferRequest ≠ some [98] := by
  simp [WireMessage.encode, encodeString, MessageType.tag, pumpBytes,
    readString, readStringSeq, readPrim, readStringsN, Inbox.empty]

/-- C8 (amended). On a message whose tag is not one of the recognized
headers the dispatcher logs one protocol error and keeps going: exactly the
tag primitive is consumed, the remaining bytes are processed as if a new
message started there (the payload is not skipped), and the channel and
connection state are untouched — reading never closes the channel. -/
theorem unknown_tag_amended :
    (∀ (t : Nat) (rest : List Nat) (i : Inbox),
      t ≠ MessageType.PlotBufferRequest.tag →
      t ≠ MessageType.GetObservedSymbolsResponse.tag →
        pumpBytes (t :: rest) i =
          ((pumpBytes rest i).1, (pumpBytes rest i).2 + 1)) ∧
    (∀ s : OidBridgeState,
      (try_read_incoming_messages s).client_ = s.client_ ∧
      (try_read_incoming_messages s).procRunning = s.procRunning) := by
  constructor
  · intro t rest i h1 h2
    simp [pumpBytes, h1, h2]
  · exact fun _ => ⟨rfl, rfl⟩

/-- C8 amended witness. A lone unknown tag 99: one error is logged, the
inbox is unchanged, the connection fields are untouched. -/
theorem unknown_tag_amended_witness :
    pumpBytes [99] Inbox.empty =
      ((pumpBytes [] Inbox.empty).1, (pumpBytes [] Inbox.empty).2 + 1) ∧
    (try_read_incoming_messages initialState).client_ =
      initialState.client_ :=
  ⟨unknown_tag_amended.1 99 [] Inbox.empty (by decide) (by decide),
    (unknown_tag_amended.2 initialState).1⟩

/-- C9. The boundary layer rejects, before anything is sent, a
`plot_buffer` call whose data is shorter than
`stride * height * channels * element_size(element_type)`: the host error is
raised and the bridge state — in particular everything written to the
channel — is unchanged. -/
theorem oid_plot_buffer_rejects_short (s : OidBridgeState) (a : PlotArgs)
    (h : a.data.length < buff_size_expected a) :
    oid_plot_buffer (some s) a = (true, some s) := by
  simp [oid_plot_buffer, h]

/-- The concrete marshalled call of the spec's buffer-size scenario:
stride 4, height 10, channels 3, 4-byte elements, 479 bytes of data. -/
def shortArgs : PlotArgs :=
  { variable_name := [118]
    display_name := [118]
    pixel_layout := [114, 103, 98]
    transpose_buffer := false
    width := 4
    height := 10
    channels := 3
    row_stride := 4
    bufferType := .Float32
    data := List.replicate 479 0 }

theorem shortArgs_short : shortArgs.data.length < buff_size_expected shortArgs := by
  have hlen : shortArgs.data.length = 479 := by
    rw [show shortArgs.data = List.replicate 479 0 from rfl,
      List.length_replicate]
  have hexp : buff_size_expected shortArgs = 480 := by decide
  rw [hlen, hexp]
  norm_num

/-- C9 witness. With stride 4, height 10, channels 3 and 4-byte elements
the required length is 480 bytes; a 479-byte buffer is rejected with an
error and nothing is transmitted. -/
theorem oid_plot_buffer_rejects_short_witness :
    shortArgs.data.length < buff_size_expected shortArgs ∧
    oid_plot_buffer (some initialState) shortArgs = (true, some initialState) :=
  ⟨shortArgs_short, oid_plot_buffer_rejects_short initialState shortArgs
    shortArgs_short⟩

/-- C10. Every public bridge entry point that takes an application
handle, when given a null handle, raises a host-level error (the flag),
performs no bridge operation, and returns its neutral default — 0 for
`oid_is_window_ready`, a null object for `oid_get_observed_buffers` —
instead of dereferencing the handle. -/
theorem null_handle_contract :
    (∀ env : StartEnv, oid_exec none env = (true, none)) ∧
    oid_cleanup none = (true, none) ∧
    oid_is_window_ready none = (true, 0, none) ∧
    oid_run_event_loop none = (true, none) ∧
    (∀ a : PlotArgs, oid_plot_buffer none a = (true, none)) ∧
    (∀ vars : List WireString,
      oid_set_available_symbols none vars = (true, none)) ∧
    oid_get_observed_buffers none = (true, none, none) :=
  ⟨fun _ => rfl, rfl, rfl, rfl, fun _ => rfl, fun _ => rfl, rfl⟩

end OID
